import Mathlib

/-!
Verification of the COVID-19 data-loading notebook
(`1-COVID-19-Loading-Data.ipynb`).

The notebook is a straight-line fetch → parse → cache pipeline.  We embed:

* a small filesystem model (paths are lists of name components; a filesystem
  is an association list from paths to entry kinds) over which the workspace
  preparation of cell-6 (`is_dir`/`rmtree`/`is_file`/`unlink`/`mkdir`), the
  archive-fetch steps of cells 28/31/33 (`extractall`, `gpd.read_file`,
  `to_pickle`, `shutil.rmtree`) and the sequential run of tabular fetch
  steps are expressed;
* the cache-file and scratch-subdirectory name constants of the notebook;
* spec-modelled versions of the external pandas capabilities the notebook
  calls (`pd.read_csv` parsing, `to_pickle`/`read_pickle` serialization).
-/

/-- Kind of a filesystem entry.  `dir` and `file` are the two kinds the
notebook's cell-6 tests for (`Path.is_dir`, `Path.is_file`); `other` stands
for an entry that is neither (for example a dangling symbolic link), for
which both tests are false. -/
inductive FSKind : Type
  | dir
  | file
  | other
deriving DecidableEq, Repr

/-- A path, as a list of name components relative to the notebook's working
directory (the OS-independent `pathlib.Path` values the notebook builds). -/
abbrev FPath := List String

/-- A filesystem state: the list of existing entries, each a path with its
kind.  Earlier entries shadow later ones with the same path. -/
abbrev FS := List (FPath × FSKind)

/-- Kind of the entry at path `p`, or `none` when no entry exists there
(the combined `exists`/`is_dir`/`is_file` information `pathlib` exposes). -/
def lookupFS : FS → FPath → Option FSKind
  | [], _ => none
  | e :: fs, p => if e.1 == p then some e.2 else lookupFS fs p

/-- Embedding of `pathlib.Path.is_dir` (cell-6): the entry exists and is a
directory.  A dangling symlink (`other`) answers false. -/
def is_dir (p : FPath) (fs : FS) : Bool :=
  lookupFS fs p == some FSKind.dir

/-- Embedding of `pathlib.Path.is_file` (cell-6): the entry exists and is a
regular file. -/
def is_file (p : FPath) (fs : FS) : Bool :=
  lookupFS fs p == some FSKind.file

/-- Embedding of `shutil.rmtree(p)` (cells 6, 28, 31, 33): removes the
directory `p` and every entry below it — exactly the entries whose path has
`p` as a prefix. -/
def rmtree (p : FPath) : FS → FS
  | [] => []
  | e :: fs => if p.isPrefixOf e.1 then rmtree p fs else e :: rmtree p fs

/-- Embedding of `pathlib.Path.unlink` (cell-6): removes the entry at
`p`. -/
def unlink (p : FPath) : FS → FS
  | [] => []
  | e :: fs => if e.1 == p then unlink p fs else e :: unlink p fs

/-- Embedding of `pathlib.Path.mkdir()` (cell-6, no `parents`, no
`exist_ok`): fails with `FileExistsError` when any entry — directory, file
or otherwise — already occupies the path, else creates an empty
directory. -/
def mkdir (p : FPath) (fs : FS) : Except Unit FS :=
  if (lookupFS fs p).isSome then Except.error ()
  else Except.ok ((p, FSKind.dir) :: fs)

/-- The removal phase of cell-6: `if download_folder.is_dir():
shutil.rmtree(download_folder) elif download_folder.is_file():
download_folder.unlink()`.  When neither test holds, nothing is removed. -/
def removeExisting (p : FPath) (fs : FS) : FS :=
  if is_dir p fs then rmtree p fs
  else if is_file p fs then unlink p fs
  else fs

/-- Workspace preparation, cell-6: remove whatever occupies the workspace
path, then `mkdir` it. -/
def prepare_workspace (p : FPath) (fs : FS) : Except Unit FS :=
  mkdir p (removeExisting p fs)

/-- The path `p` is an existing directory with no entry strictly below it:
the "empty directory" the spec says workspace preparation leaves behind. -/
def is_empty_dir (p : FPath) (fs : FS) : Bool :=
  lookupFS fs p == some FSKind.dir &&
    fs.all (fun e => e.1 == p || !(p.isPrefixOf e.1))

/-- The nonempty proper ancestors of a path: every path strictly between
the working directory and `q` on `q`'s chain of parents. -/
def properAncestors : FPath → List FPath
  | [] => []
  | [_] => []
  | a :: b :: rest => [a] :: (properAncestors (b :: rest)).map (fun t => a :: t)

/-- Well-formedness of a filesystem state: every proper ancestor of an
existing entry exists and is a directory — true of any state a real
filesystem can be in. -/
def wfFS (fs : FS) : Bool :=
  fs.all (fun e => (properAncestors e.1).all (fun p => lookupFS fs p == some FSKind.dir))

/-- Result of one notebook step: the run continues with filesystem state
`fs` (`ok`), or an uncaught exception aborts it leaving state `fs`
(`err`). -/
inductive StepResult : Type
  | ok (fs : FS)
  | err (fs : FS)
deriving DecidableEq, Repr

/-- The filesystem state after a step, whether it succeeded or aborted. -/
def resultFS : StepResult → FS
  | StepResult.ok fs => fs
  | StepResult.err fs => fs

/-- Embedding of `ZipFile.extractall(sub_folder)` (cells 28, 31, 33):
creates the scratch directory and writes each archive entry below it. -/
def extractall (sub : FPath) (entries : List (FPath × FSKind)) (fs : FS) : FS :=
  entries.foldl (fun acc e => (sub ++ e.1, e.2) :: acc) ((sub, FSKind.dir) :: fs)

/-- Embedding of `DataFrame.to_pickle(p)` as a filesystem effect (cells 9,
14, 17, 21, 25, 28, 31, 33): overwrites any entry at `p` with a regular
file. -/
def write_file (p : FPath) (fs : FS) : FS :=
  (p, FSKind.file) :: unlink p fs

/-- One archive-fetch step (cells 28, 31, 33), embedded straight-line:
`urlopen` + `ZipFile(...).extractall(sub_folder)`, then `gpd.read_file`,
then `to_pickle`, then `shutil.rmtree(sub_folder)`.  The external
transport and geometry parse either succeed or raise; `transportOk` and
`parseOk` say which.  There is no `try`/`finally` in the source: an
exception propagates immediately, skipping every later line of the cell. -/
def archive_fetch (transportOk parseOk : Bool) (sub cache : FPath)
    (entries : List (FPath × FSKind)) (fs : FS) : StepResult :=
  if transportOk = false then StepResult.err fs
  else
    let fs1 := extractall sub entries fs
    if parseOk = false then StepResult.err fs1
    else
      let fs2 := write_file cache fs1
      StepResult.ok (rmtree sub fs2)

/-- One tabular fetch step of the run: `pd.read_csv(url)` either succeeds
(`ok = true`) or raises a transport/parse exception, and on success the
parsed table is pickled to `cache` in the workspace. -/
structure FetchStep : Type where
  ok : Bool
  cache : FPath
deriving DecidableEq, Repr

/-- The straight-line run of tabular fetch steps (cells 9, 14, 17, 21, 25):
each step in order either writes its cache file and continues, or raises,
aborting the whole run at that step with the filesystem as it stands.  No
step is wrapped in `try`/`except`. -/
def run_pipeline : List FetchStep → FS → StepResult
  | [], fs => StepResult.ok fs
  | s :: rest, fs =>
      if s.ok then run_pipeline rest (write_file s.cache fs)
      else StepResult.err fs

/-- The cache file names the notebook writes into the workspace directory,
in run order (cells 9, 14, 17, 21, 25, 28, 31, 33). -/
def cache_file_names : List String :=
  ["covid_tracking_project.pkl",
   "covid_act_now.pkl",
   "jhu_confirmed_us.pkl",
   "jhu_deaths_us.pkl",
   "jhu_confirmed_global.pkl",
   "jhu_deaths_global.pkl",
   "jhu_geo_data.pkl",
   "ne_10m_admin_0_countries.pkl",
   "tl_2017_us_state.pkl",
   "tl_2017_us_county.pkl"]

/-- The scratch subdirectory names of the three archive-fetch steps
(cells 28, 31, 33). -/
def scratch_folder_names : List String :=
  ["shapes_global", "shapes_state", "shapes_county"]

/-- The COVID Act Now API key variable of cell-14, at its literal default
value. -/
def CAN_Key : String := "<your key here>"

/-- The COVID Act Now file name constant of cell-14. -/
def CAN_File : String := "states.timeseries.csv"

/-- The URL cell-14 builds by f-string interpolation for a given value of
the `CAN_Key` variable. -/
def can_request_url (key : String) : String :=
  "https://api.covidactnow.org/v2/" ++ CAN_File ++ "?apiKey=" ++ key

/-- The URL cell-14 actually passes to `pd.read_csv`: the cell issues the
request unconditionally, with whatever `CAN_Key` holds — there is no guard
comparing it against the placeholder. -/
def can_step_request : String := can_request_url CAN_Key

/-- A tabular dataset as parsed from CSV: the header (column names in
order) and the data rows. -/
structure Table : Type where
  header : List String
  rows : List (List String)
deriving DecidableEq, Repr

/-- Split a character stream at every occurrence of the separator `c`;
always returns at least one (possibly empty) piece, like `str.split`. -/
def splitOnChar (c : Char) : List Char → List (List Char)
  | [] => [[]]
  | a :: as =>
      match splitOnChar c as with
      | [] => if a = c then [[], []] else [[a]]
      | x :: xs => if a = c then [] :: x :: xs else (a :: x) :: xs

/-- Modelled from the spec: the CSV-parsing capability (`pd.read_csv`) is
external to this repository; per §4.2 it turns a CSV byte stream into "a
tabular dataset reflecting exactly the rows/columns of the remote CSV".
The stream's nonblank lines are the header row followed by the data rows
(blank lines are skipped, the parser's default); each line is split at
commas into fields; an empty stream is a parse error. -/
def read_csv (content : String) : Option Table :=
  match (splitOnChar '\n' content.data).filter (fun l => !(l == [])) with
  | [] => none
  | h :: rest =>
      some ⟨(splitOnChar ',' h).map String.mk,
            rest.map (fun r => (splitOnChar ',' r).map String.mk)⟩

/-- Column type of a cached dataset column, as the cache format records
it. -/
inductive Dtype : Type
  | intT
  | textT
  | dateT
  | geomT
deriving DecidableEq, Repr

/-- A cell value of a cached dataset: a number, a text value, the
missing-value marker, or a vector geometry (a boundary polygon given by its
vertices). -/
inductive CellVal : Type
  | intV (n : Int)
  | textV (s : String)
  | missing
  | geomV (poly : List (Int × Int))
deriving DecidableEq, Repr

/-- A dataset as held in memory right before caching: named columns with
recorded dtypes, and rows of cells.  A geographic feature collection is the
case where a column holds `geomV` cells. -/
structure DataSet : Type where
  cols : List String
  dtypes : List Dtype
  rows : List (List CellVal)
deriving DecidableEq, Repr

/-- A token of the serialized cache stream: length counters, column names,
dtype markers, and cell payloads. -/
inductive PTok : Type
  | num (n : Nat)
  | name (s : String)
  | cell (c : CellVal)
  | dty (d : Dtype)
deriving DecidableEq, Repr

/-- Length-prefixed encoding of the column-name list. -/
def encodeCols (cols : List String) : List PTok :=
  PTok.num cols.length :: cols.map PTok.name

/-- Length-prefixed encoding of the dtype list. -/
def encodeDts (ds : List Dtype) : List PTok :=
  PTok.num ds.length :: ds.map PTok.dty

/-- Length-prefixed encoding of one row of cells. -/
def encodeRow (r : List CellVal) : List PTok :=
  PTok.num r.length :: r.map PTok.cell

/-- Length-prefixed encoding of the row list. -/
def encodeRows (rs : List (List CellVal)) : List PTok :=
  PTok.num rs.length :: (rs.map encodeRow).foldr (fun a b => a ++ b) []

/-- Modelled from the spec: the binary table-serialization capability
(`DataFrame.to_pickle`) is external to this repository; per §4.4 it
"serializes the in-memory representation byte-for-byte reloadable,
preserving column dtypes and, for geographic collections, native geometry
objects". -/
def to_pickle (d : DataSet) : List PTok :=
  encodeCols d.cols ++ encodeDts d.dtypes ++ encodeRows d.rows

/-- Decode `n` column-name tokens, returning the names and the rest of the
stream. -/
def decodeNames : Nat → List PTok → Option (List String × List PTok)
  | 0, ts => some ([], ts)
  | n + 1, PTok.name s :: ts =>
      match decodeNames n ts with
      | some (xs, r) => some (s :: xs, r)
      | none => none
  | _ + 1, _ => none

/-- Decode `n` dtype tokens. -/
def decodeDts : Nat → List PTok → Option (List Dtype × List PTok)
  | 0, ts => some ([], ts)
  | n + 1, PTok.dty d :: ts =>
      match decodeDts n ts with
      | some (xs, r) => some (d :: xs, r)
      | none => none
  | _ + 1, _ => none

/-- Decode `n` cell tokens. -/
def decodeCells : Nat → List PTok → Option (List CellVal × List PTok)
  | 0, ts => some ([], ts)
  | n + 1, PTok.cell c :: ts =>
      match decodeCells n ts with
      | some (xs, r) => some (c :: xs, r)
      | none => none
  | _ + 1, _ => none

/-- Decode `n` length-prefixed rows. -/
def decodeRows : Nat → List PTok → Option (List (List CellVal) × List PTok)
  | 0, ts => some ([], ts)
  | n + 1, PTok.num k :: ts =>
      match decodeCells k ts with
      | some (r, ts1) =>
          match decodeRows n ts1 with
          | some (rs, ts2) => some (r :: rs, ts2)
          | none => none
      | none => none
  | _ + 1, _ => none

/-- Modelled from the spec: the cache-reload capability
(`pd.read_pickle`, cells 29, 32, 34) is external to this repository; it
reads back the serialized stream into the in-memory dataset, failing on a
malformed stream. -/
def read_pickle (ts : List PTok) : Option DataSet :=
  match ts with
  | PTok.num nc :: ts1 =>
      match decodeNames nc ts1 with
      | some (cols, PTok.num nd :: ts2) =>
          match decodeDts nd ts2 with
          | some (dts, PTok.num nr :: ts3) =>
              match decodeRows nr ts3 with
              | some (rows, []) => some ⟨cols, dts, rows⟩
              | _ => none
          | _ => none
      | _ => none
  | _ => none

/-- Looking up a path below the root removed by `rmtree` finds nothing. -/
theorem lookupFS_rmtree_below (p q : FPath) (fs : FS) (h : p.isPrefixOf q = true) :
    lookupFS (rmtree p fs) q = none := by
  induction fs with
  | nil => rfl
  | cons e fs ih =>
    by_cases hp : p.isPrefixOf e.1 = true
    · simp [rmtree, hp, ih]
    · have hne : (e.1 == q) = false := by
        refine beq_eq_false_iff_ne.mpr ?_
        intro hq
        exact hp (hq ▸ h)
      simp [rmtree, hp, lookupFS, hne, ih]

/-- `rmtree` leaves every path outside the removed subtree untouched. -/
theorem lookupFS_rmtree_frame (p q : FPath) (fs : FS) (h : p.isPrefixOf q = false) :
    lookupFS (rmtree p fs) q = lookupFS fs q := by
  induction fs with
  | nil => rfl
  | cons e fs ih =>
    by_cases hp : p.isPrefixOf e.1 = true
    · have hne : (e.1 == q) = false := by
        refine beq_eq_false_iff_ne.mpr ?_
        intro hq
        rw [hq] at hp
        exact absurd hp (by simp [h])
      simp [rmtree, hp, lookupFS, hne, ih]
    · simp only [rmtree, hp, if_false, Bool.false_eq_true]
      cases hq : (e.1 == q) <;> simp [lookupFS, hq, ih]

/-- After `unlink p` the path `p` no longer exists. -/
theorem lookupFS_unlink_self (p : FPath) (fs : FS) :
    lookupFS (unlink p fs) p = none := by
  induction fs with
  | nil => rfl
  | cons e fs ih =>
    cases hp : (e.1 == p) <;> simp [unlink, hp, lookupFS, ih]

/-- `unlink p` leaves every other path untouched. -/
theorem lookupFS_unlink_frame (p q : FPath) (fs : FS) (h : q ≠ p) :
    lookupFS (unlink p fs) q = lookupFS fs q := by
  induction fs with
  | nil => rfl
  | cons e fs ih =>
    by_cases hp : (e.1 == p) = true
    · have hne : (e.1 == q) = false := by
        refine beq_eq_false_iff_ne.mpr ?_
        intro hq
        exact h (hq.symm.trans (beq_iff_eq.mp hp))
      simp [unlink, hp, lookupFS, hne, ih]
    · simp only [unlink, hp, Bool.false_eq_true, if_false]
      cases hq : (e.1 == q) <;> simp [lookupFS, hq, ih]

/-- The cache file just written is present as a regular file. -/
theorem lookupFS_write_file_self (p : FPath) (fs : FS) :
    lookupFS (write_file p fs) p = some FSKind.file := by
  simp [write_file, lookupFS]

/-- Writing a cache file leaves every other path untouched. -/
theorem lookupFS_write_file_frame (p q : FPath) (fs : FS) (h : q ≠ p) :
    lookupFS (write_file p fs) q = lookupFS fs q := by
  have hne : (p == q) = false := beq_eq_false_iff_ne.mpr (fun hq => h hq.symm)
  simp [write_file, lookupFS, hne, lookupFS_unlink_frame p q fs h]

/-- A listed entry is found by lookup (with some kind). -/
theorem lookupFS_isSome_of_mem (fs : FS) (e : FPath × FSKind) (he : e ∈ fs) :
    (lookupFS fs e.1).isSome = true := by
  induction fs with
  | nil => cases he
  | cons a fs ih =>
    rcases List.mem_cons.mp he with h | h
    · subst h
      simp [lookupFS]
    · cases ha : (a.1 == e.1) <;> simp [lookupFS, ha, ih h]

/-- Entries surviving `rmtree p` lie outside the removed subtree. -/
theorem mem_rmtree (p : FPath) (fs : FS) (e : FPath × FSKind) (he : e ∈ rmtree p fs) :
    e ∈ fs ∧ p.isPrefixOf e.1 = false := by
  induction fs with
  | nil => cases he
  | cons a fs ih =>
    by_cases hp : p.isPrefixOf a.1 = true
    · rw [rmtree, if_pos hp] at he
      exact ⟨List.mem_cons_of_mem a (ih he).1, (ih he).2⟩
    · rw [rmtree, if_neg hp] at he
      rcases List.mem_cons.mp he with h | h
      · subst h
        exact ⟨List.mem_cons_self e fs, Bool.eq_false_iff.mpr hp⟩
      · exact ⟨List.mem_cons_of_mem a (ih h).1, (ih h).2⟩

/-- Entries surviving `unlink p` are the original entries away from `p`. -/
theorem mem_unlink (p : FPath) (fs : FS) (e : FPath × FSKind) (he : e ∈ unlink p fs) :
    e ∈ fs ∧ e.1 ≠ p := by
  induction fs with
  | nil => cases he
  | cons a fs ih =>
    by_cases hp : (a.1 == p) = true
    · rw [unlink, if_pos hp] at he
      exact ⟨List.mem_cons_of_mem a (ih he).1, (ih he).2⟩
    · rw [unlink, if_neg hp] at he
      rcases List.mem_cons.mp he with h | h
      · subst h
        exact ⟨List.mem_cons_self e fs, by simpa using hp⟩
      · exact ⟨List.mem_cons_of_mem a (ih h).1, (ih h).2⟩

/-- A nonempty strict prefix of a path is one of its proper ancestors. -/
theorem mem_properAncestors (p q : FPath) (hpre : p <+: q) (hne : p ≠ q)
    (hnil : p ≠ []) : p ∈ properAncestors q := by
  induction q generalizing p with
  | nil =>
    exact absurd (List.prefix_nil.mp hpre) hne
  | cons a q ih =>
    cases p with
    | nil => exact absurd rfl hnil
    | cons x p =>
      obtain ⟨hx, hp⟩ := List.cons_prefix_cons.mp hpre
      subst hx
      cases q with
      | nil =>
        rw [List.prefix_nil.mp hp] at hne
        exact absurd rfl hne
      | cons b q =>
        cases p with
        | nil =>
          exact List.mem_cons_self _ _
        | cons y p =>
          have hne2 : y :: p ≠ b :: q := by
            intro hcon
            exact hne (by rw [hcon])
          have hmem := ih (y :: p) hp hne2 (by simp)
          rw [properAncestors]
          exact List.mem_cons_of_mem _ (List.mem_map_of_mem (fun t => x :: t) hmem)

/-- In a well-formed filesystem, a nonempty path that is not a directory
has no entry strictly below it. -/
theorem wf_no_strict_descendant (fs : FS) (p : FPath) (hwf : wfFS fs = true)
    (hp : p ≠ []) (hnd : lookupFS fs p ≠ some FSKind.dir) :
    ∀ e ∈ fs, e.1 = p ∨ p.isPrefixOf e.1 = false := by
  intro e he
  by_cases heq : e.1 = p
  · exact Or.inl heq
  · refine Or.inr ?_
    by_contra hcon
    have hpre : p <+: e.1 := by
      have := Bool.not_eq_false _ |>.mp hcon
      exact List.isPrefixOf_iff_prefix.mp this
    have hmem : p ∈ properAncestors e.1 :=
      mem_properAncestors p e.1 hpre (fun h => heq h.symm) hp
    have hall := List.all_eq_true.mp hwf e he
    have hdir := List.all_eq_true.mp hall p hmem
    exact hnd (beq_iff_eq.mp hdir)

/-- Creating the workspace directory on a clean slate yields an empty
directory: `mkdir` succeeds and nothing lies at or below the new path. -/
theorem mkdir_fresh (p : FPath) (fs' : FS) (hnone : lookupFS fs' p = none)
    (hdesc : ∀ e ∈ fs', e.1 = p ∨ p.isPrefixOf e.1 = false) :
    mkdir p fs' = Except.ok ((p, FSKind.dir) :: fs') ∧
      is_empty_dir p ((p, FSKind.dir) :: fs') = true := by
  constructor
  · simp [mkdir, hnone]
  · rw [is_empty_dir, Bool.and_eq_true]
    refine ⟨by simp [lookupFS], ?_⟩
    refine List.all_eq_true.mpr ?_
    intro e he
    rcases List.mem_cons.mp he with h | h
    · subst h
      simp
    · rcases hdesc e h with h1 | h1
      · have : (lookupFS fs' e.1).isSome = true := lookupFS_isSome_of_mem fs' e h
        rw [h1, hnone] at this
        cases this
      · simp [h1]

/-- When the workspace path is an existing directory, cell-6 removes the
whole tree and recreates the path as an empty directory. -/
theorem prepare_dir_case (p : FPath) (fs : FS) (hd : lookupFS fs p = some FSKind.dir) :
    prepare_workspace p fs = Except.ok ((p, FSKind.dir) :: rmtree p fs) ∧
      is_empty_dir p ((p, FSKind.dir) :: rmtree p fs) = true := by
  have hself : p.isPrefixOf p = true := by simp
  have hnone : lookupFS (rmtree p fs) p = none := lookupFS_rmtree_below p p fs hself
  have hrem : removeExisting p fs = rmtree p fs := by
    simp [removeExisting, is_dir, hd]
  have hmk := mkdir_fresh p (rmtree p fs) hnone
    (fun e he => Or.inr (mem_rmtree p fs e he).2)
  exact ⟨by rw [prepare_workspace, hrem, hmk.1], hmk.2⟩

/-- Running cell-6 once, from any of the three pre-states the notebook's
branches handle (absent, directory, regular file), succeeds and leaves the
workspace path an empty directory. -/
theorem prepare_first_run (p : FPath) (fs : FS) (hp : p ≠ []) (hwf : wfFS fs = true)
    (hstate : lookupFS fs p = none ∨ lookupFS fs p = some FSKind.dir ∨
      lookupFS fs p = some FSKind.file) :
    ∃ fs', prepare_workspace p fs = Except.ok ((p, FSKind.dir) :: fs') ∧
      is_empty_dir p ((p, FSKind.dir) :: fs') = true := by
  rcases hstate with h | h | h
  · have hrem : removeExisting p fs = fs := by
      simp [removeExisting, is_dir, is_file, h]
    have hdesc := wf_no_strict_descendant fs p hwf hp (by simp [h])
    have hmk := mkdir_fresh p fs h hdesc
    exact ⟨fs, by rw [prepare_workspace, hrem, hmk.1], hmk.2⟩
  · have hpc := prepare_dir_case p fs h
    exact ⟨rmtree p fs, hpc.1, hpc.2⟩
  · have hrem : removeExisting p fs = unlink p fs := by
      simp [removeExisting, is_dir, is_file, h]
    have hnone := lookupFS_unlink_self p fs
    have hnd : lookupFS fs p ≠ some FSKind.dir := by simp [h]
    have hdesc : ∀ e ∈ unlink p fs, e.1 = p ∨ p.isPrefixOf e.1 = false := by
      intro e he
      rcases wf_no_strict_descendant fs p hwf hp hnd e (mem_unlink p fs e he).1 with h1 | h1
      · exact absurd h1 (mem_unlink p fs e he).2
      · exact Or.inr h1
    have hmk := mkdir_fresh p (unlink p fs) hnone hdesc
    exact ⟨unlink p fs, by rw [prepare_workspace, hrem, hmk.1], hmk.2⟩

/-- C2: workspace preparation is idempotent with respect to pre-existing
filesystem state: for every prior state of the workspace path (absent,
directory with any contents, or regular file), running cell-6 leaves the
path an empty directory, and running it twice in succession on the same
date does so both times. -/
theorem prepare_workspace_idempotent (p : FPath) (fs : FS) (hp : p ≠ [])
    (hwf : wfFS fs = true)
    (hstate : lookupFS fs p = none ∨ lookupFS fs p = some FSKind.dir ∨
      lookupFS fs p = some FSKind.file) :
    ∃ fs1 fs2, prepare_workspace p fs = Except.ok fs1 ∧ is_empty_dir p fs1 = true ∧
      prepare_workspace p fs1 = Except.ok fs2 ∧ is_empty_dir p fs2 = true := by
  obtain ⟨fs', h1, h2⟩ := prepare_first_run p fs hp hwf hstate
  have hd1 : lookupFS ((p, FSKind.dir) :: fs') p = some FSKind.dir := by
    simp [lookupFS]
  have hsecond := prepare_dir_case p ((p, FSKind.dir) :: fs') hd1
  exact ⟨_, _, h1, h2, hsecond.1, hsecond.2⟩

/-- Witness for C2 at a concrete input: a workspace directory already
holding a stale cache file is rebuilt as an empty directory, twice. -/
theorem prepare_workspace_idempotent_witness :
    ∃ fs1 fs2,
      prepare_workspace ["2020-12-21-COVID-19-Data"]
        [(["2020-12-21-COVID-19-Data"], FSKind.dir),
         (["2020-12-21-COVID-19-Data", "covid_tracking_project.pkl"], FSKind.file)] =
        Except.ok fs1 ∧
      is_empty_dir ["2020-12-21-COVID-19-Data"] fs1 = true ∧
      prepare_workspace ["2020-12-21-COVID-19-Data"] fs1 = Except.ok fs2 ∧
      is_empty_dir ["2020-12-21-COVID-19-Data"] fs2 = true :=
  prepare_workspace_idempotent ["2020-12-21-COVID-19-Data"]
    [(["2020-12-21-COVID-19-Data"], FSKind.dir),
     (["2020-12-21-COVID-19-Data", "covid_tracking_project.pkl"], FSKind.file)]
    (by decide) (by decide) (by decide)

/-- C4: when the workspace path does not yet exist, cell-6 creates it as an
empty directory; when it is an existing regular file, cell-6 removes the
file and creates an empty directory in its place. -/
theorem prepare_workspace_scenarios (p : FPath) (fs : FS) (hp : p ≠ [])
    (hwf : wfFS fs = true) :
    (lookupFS fs p = none → ∃ fs1, prepare_workspace p fs = Except.ok fs1 ∧
      is_empty_dir p fs1 = true) ∧
    (lookupFS fs p = some FSKind.file → ∃ fs1, prepare_workspace p fs = Except.ok fs1 ∧
      lookupFS fs1 p = some FSKind.dir ∧ is_empty_dir p fs1 = true) := by
  constructor
  · intro h
    obtain ⟨fs', h1, h2⟩ := prepare_first_run p fs hp hwf (Or.inl h)
    exact ⟨_, h1, h2⟩
  · intro h
    obtain ⟨fs', h1, h2⟩ := prepare_first_run p fs hp hwf (Or.inr (Or.inr h))
    exact ⟨_, h1, by simp [lookupFS], h2⟩

/-- Witness for C4 at concrete inputs: an absent workspace path is created;
a regular file at the workspace path is replaced by an empty directory. -/
theorem prepare_workspace_scenarios_witness :
    (∃ fs1, prepare_workspace ["2020-12-21-COVID-19-Data"] [] = Except.ok fs1 ∧
      is_empty_dir ["2020-12-21-COVID-19-Data"] fs1 = true) ∧
    (∃ fs1, prepare_workspace ["2020-12-21-COVID-19-Data"]
        [(["2020-12-21-COVID-19-Data"], FSKind.file)] = Except.ok fs1 ∧
      lookupFS fs1 ["2020-12-21-COVID-19-Data"] = some FSKind.dir ∧
      is_empty_dir ["2020-12-21-COVID-19-Data"] fs1 = true) :=
  ⟨(prepare_workspace_scenarios ["2020-12-21-COVID-19-Data"] []
      (by decide) (by decide)).1 rfl,
   (prepare_workspace_scenarios ["2020-12-21-COVID-19-Data"]
      [(["2020-12-21-COVID-19-Data"], FSKind.file)] (by decide) (by decide)).2 rfl⟩

/-- C8: when the entry occupying the workspace path is neither a directory
nor a regular file (for example a dangling symbolic link), neither removal
branch of cell-6 applies — nothing is removed — and the final `mkdir`
fails because the path is still occupied. -/
theorem prepare_workspace_other_entry (p : FPath) (fs : FS)
    (h : lookupFS fs p = some FSKind.other) :
    removeExisting p fs = fs ∧ prepare_workspace p fs = Except.error () := by
  have hrem : removeExisting p fs = fs := by
    simp [removeExisting, is_dir, is_file, h]
  refine ⟨hrem, ?_⟩
  rw [prepare_workspace, hrem]
  simp [mkdir, h]

/-- Witness for C8 at a concrete input: a dangling symlink occupying the
workspace path survives the removal phase and makes `mkdir` fail. -/
theorem prepare_workspace_other_entry_witness :
    removeExisting ["2020-12-21-COVID-19-Data"]
      [(["2020-12-21-COVID-19-Data"], FSKind.other)] =
      [(["2020-12-21-COVID-19-Data"], FSKind.other)] ∧
    prepare_workspace ["2020-12-21-COVID-19-Data"]
      [(["2020-12-21-COVID-19-Data"], FSKind.other)] = Except.error () :=
  prepare_workspace_other_entry ["2020-12-21-COVID-19-Data"]
    [(["2020-12-21-COVID-19-Data"], FSKind.other)] (by decide)

/-- C1 counterexample: in the county-style archive fetch, when the
geometry parse raises, the step aborts before the `shutil.rmtree` line and
the scratch subdirectory still exists afterwards — cleanup is not
unconditional. -/
theorem archive_fetch_cleanup_counterexample :
    ¬ lookupFS
        (resultFS (archive_fetch true false
          ["2020-12-21-COVID-19-Data", "shapes_county"]
          ["2020-12-21-COVID-19-Data", "tl_2017_us_county.pkl"]
          [(["tl_2017_us_county.shp"], FSKind.file)]
          [(["2020-12-21-COVID-19-Data"], FSKind.dir)]))
        ["2020-12-21-COVID-19-Data", "shapes_county"] = none := by decide

/-- C1 amended: after an archive-fetch step in which the transport and the
geometry parse succeed, the scratch subdirectory used for extraction no
longer exists; when the parse fails, the step aborts before the cleanup
line and the scratch subdirectory remains. -/
theorem archive_fetch_cleanup_on_success (sub cache : FPath)
    (entries : List (FPath × FSKind)) (fs : FS) :
    ∃ fs', archive_fetch true true sub cache entries fs = StepResult.ok fs' ∧
      lookupFS fs' sub = none := by
  refine ⟨_, rfl, ?_⟩
  exact lookupFS_rmtree_below sub sub _ (by simp)

/-- C9: the `shutil.rmtree(sub_folder)` at the end of an archive-fetch
step removes only the scratch subtree: every path outside it — in
particular every cache file in the workspace directory — is unchanged, and
the pickle file written earlier in the same step is still present after a
successful step. -/
theorem rmtree_scratch_frame (sub cache q : FPath)
    (entries : List (FPath × FSKind)) (fs : FS) :
    (sub.isPrefixOf q = false → lookupFS (rmtree sub fs) q = lookupFS fs q) ∧
    (sub.isPrefixOf cache = false →
      lookupFS (resultFS (archive_fetch true true sub cache entries fs)) cache =
        some FSKind.file) := by
  constructor
  · exact lookupFS_rmtree_frame sub q fs
  · intro h
    show lookupFS (rmtree sub (write_file cache (extractall sub entries fs))) cache = _
    rw [lookupFS_rmtree_frame sub cache _ h]
    exact lookupFS_write_file_self cache _

/-- Witness for C9 at concrete inputs: the CTP cache file written by an
earlier step is untouched by the state-boundaries cleanup, and the state
pickle written in the same step survives it. -/
theorem rmtree_scratch_frame_witness :
    (lookupFS
      (rmtree ["2020-12-21-COVID-19-Data", "shapes_state"]
        [(["2020-12-21-COVID-19-Data"], FSKind.dir),
         (["2020-12-21-COVID-19-Data", "covid_tracking_project.pkl"], FSKind.file),
         (["2020-12-21-COVID-19-Data", "shapes_state"], FSKind.dir)])
      ["2020-12-21-COVID-19-Data", "covid_tracking_project.pkl"] =
     lookupFS
      [(["2020-12-21-COVID-19-Data"], FSKind.dir),
       (["2020-12-21-COVID-19-Data", "covid_tracking_project.pkl"], FSKind.file),
       (["2020-12-21-COVID-19-Data", "shapes_state"], FSKind.dir)]
      ["2020-12-21-COVID-19-Data", "covid_tracking_project.pkl"]) ∧
    (lookupFS
      (resultFS (archive_fetch true true
        ["2020-12-21-COVID-19-Data", "shapes_state"]
        ["2020-12-21-COVID-19-Data", "tl_2017_us_state.pkl"]
        [(["tl_2017_us_state.shp"], FSKind.file)]
        [(["2020-12-21-COVID-19-Data"], FSKind.dir),
         (["2020-12-21-COVID-19-Data", "covid_tracking_project.pkl"], FSKind.file)]))
      ["2020-12-21-COVID-19-Data", "tl_2017_us_state.pkl"] = some FSKind.file) :=
  ⟨(rmtree_scratch_frame ["2020-12-21-COVID-19-Data", "shapes_state"]
      ["2020-12-21-COVID-19-Data", "tl_2017_us_state.pkl"]
      ["2020-12-21-COVID-19-Data", "covid_tracking_project.pkl"]
      [(["tl_2017_us_state.shp"], FSKind.file)]
      [(["2020-12-21-COVID-19-Data"], FSKind.dir),
       (["2020-12-21-COVID-19-Data", "covid_tracking_project.pkl"], FSKind.file),
       (["2020-12-21-COVID-19-Data", "shapes_state"], FSKind.dir)]).1 (by decide),
   (rmtree_scratch_frame ["2020-12-21-COVID-19-Data", "shapes_state"]
      ["2020-12-21-COVID-19-Data", "tl_2017_us_state.pkl"]
      ["2020-12-21-COVID-19-Data", "covid_tracking_project.pkl"]
      [(["tl_2017_us_state.shp"], FSKind.file)]
      [(["2020-12-21-COVID-19-Data"], FSKind.dir),
       (["2020-12-21-COVID-19-Data", "covid_tracking_project.pkl"], FSKind.file)]).2
      (by decide)⟩

/-- C3: no fetch step catches its transport or parse error: when a step
fails, the run aborts right there; every cache file written by the earlier
(successful) steps is present in the workspace, while neither the failing
step nor any later step has written its cache file; paths outside the
run's cache names are untouched. -/
theorem run_pipeline_aborts_at_failure (done : List FetchStep) (bad : FetchStep)
    (later : List FetchStep) (fs0 : FS)
    (hdone : ∀ s ∈ done, s.ok = true) (hbad : bad.ok = false)
    (hdist : ((done ++ bad :: later).map FetchStep.cache).Nodup)
    (habsent : ∀ s ∈ done ++ bad :: later, lookupFS fs0 s.cache = none) :
    ∃ fsE, run_pipeline (done ++ bad :: later) fs0 = StepResult.err fsE ∧
      (∀ s ∈ done, lookupFS fsE s.cache = some FSKind.file) ∧
      lookupFS fsE bad.cache = none ∧
      (∀ s ∈ later, lookupFS fsE s.cache = none) ∧
      (∀ q : FPath, q ∉ (done ++ bad :: later).map FetchStep.cache →
        lookupFS fsE q = lookupFS fs0 q) := by
  induction done generalizing fs0 with
  | nil =>
    refine ⟨fs0, ?_, ?_, ?_, ?_, ?_⟩
    · simp [run_pipeline, hbad]
    · intro s hs
      cases hs
    · exact habsent bad (by simp)
    · intro s hs
      exact habsent s (by simp [hs])
    · intro q hq
      rfl
  | cons s done ih =>
    rw [List.cons_append, List.map_cons, List.nodup_cons] at hdist
    obtain ⟨hhead, htail⟩ := hdist
    have hok : s.ok = true := hdone s (List.mem_cons_self s done)
    have habsent2 : ∀ t ∈ done ++ bad :: later,
        lookupFS (write_file s.cache fs0) t.cache = none := by
      intro t ht
      have hne : t.cache ≠ s.cache := by
        intro hcon
        exact hhead (hcon ▸ List.mem_map_of_mem FetchStep.cache ht)
      rw [lookupFS_write_file_frame s.cache t.cache fs0 hne]
      exact habsent t (by rw [List.cons_append]; exact List.mem_cons_of_mem s ht)
    obtain ⟨fsE, h1, h2, h3, h4, h5⟩ := ih (write_file s.cache fs0)
      (fun t ht => hdone t (List.mem_cons_of_mem s ht)) htail habsent2
    refine ⟨fsE, ?_, ?_, h3, h4, ?_⟩
    · rw [List.cons_append, run_pipeline, if_pos hok]
      exact h1
    · intro t ht
      rcases List.mem_cons.mp ht with h | h
      · subst h
        rw [h5 t.cache hhead]
        exact lookupFS_write_file_self t.cache fs0
      · exact h2 t h
    · intro q hq
      rw [List.cons_append, List.map_cons] at hq
      have hq1 : q ≠ s.cache := fun hcon => hq (hcon ▸ List.mem_cons_self _ _)
      have hq2 : q ∉ (done ++ bad :: later).map FetchStep.cache :=
        fun hcon => hq (List.mem_cons_of_mem _ hcon)
      rw [h5 q hq2]
      exact lookupFS_write_file_frame s.cache q fs0 hq1

/-- Witness for C3 at a concrete run: the first step succeeds, the second
fails, the third never runs — the first cache file is present, the other
two absent, and the workspace directory itself is untouched. -/
theorem run_pipeline_aborts_at_failure_witness :
    ∃ fsE, run_pipeline
        [⟨true, ["2020-12-21-COVID-19-Data", "covid_tracking_project.pkl"]⟩,
         ⟨false, ["2020-12-21-COVID-19-Data", "covid_act_now.pkl"]⟩,
         ⟨true, ["2020-12-21-COVID-19-Data", "jhu_confirmed_us.pkl"]⟩]
        [(["2020-12-21-COVID-19-Data"], FSKind.dir)] = StepResult.err fsE ∧
      (∀ s ∈ [(⟨true, ["2020-12-21-COVID-19-Data", "covid_tracking_project.pkl"]⟩ : FetchStep)],
        lookupFS fsE s.cache = some FSKind.file) ∧
      lookupFS fsE ["2020-12-21-COVID-19-Data", "covid_act_now.pkl"] = none ∧
      (∀ s ∈ [(⟨true, ["2020-12-21-COVID-19-Data", "jhu_confirmed_us.pkl"]⟩ : FetchStep)],
        lookupFS fsE s.cache = none) ∧
      (∀ q : FPath, q ∉ ([⟨true, ["2020-12-21-COVID-19-Data", "covid_tracking_project.pkl"]⟩,
          ⟨false, ["2020-12-21-COVID-19-Data", "covid_act_now.pkl"]⟩,
          ⟨true, ["2020-12-21-COVID-19-Data", "jhu_confirmed_us.pkl"]⟩] :
            List FetchStep).map FetchStep.cache →
        lookupFS fsE q = lookupFS [(["2020-12-21-COVID-19-Data"], FSKind.dir)] q) :=
  run_pipeline_aborts_at_failure
    [⟨true, ["2020-12-21-COVID-19-Data", "covid_tracking_project.pkl"]⟩]
    ⟨false, ["2020-12-21-COVID-19-Data", "covid_act_now.pkl"]⟩
    [⟨true, ["2020-12-21-COVID-19-Data", "jhu_confirmed_us.pkl"]⟩]
    [(["2020-12-21-COVID-19-Data"], FSKind.dir)]
    (by decide) rfl (by decide) (by decide)

/-- C5: parsing a fixed CSV byte stream is deterministic (the parser is a
pure function of the stream), and the resulting table's column names and
column order are exactly the header row's fields while its row count is
exactly the stream's data-row count. -/
theorem read_csv_matches_stream (content : String) (h : List Char)
    (rest : List (List Char))
    (hl : (splitOnChar '\n' content.data).filter (fun l => !(l == [])) = h :: rest) :
    read_csv content =
      some ⟨(splitOnChar ',' h).map String.mk,
            rest.map (fun r => (splitOnChar ',' r).map String.mk)⟩ ∧
    ∀ t, read_csv content = some t →
      t.header = (splitOnChar ',' h).map String.mk ∧ t.rows.length = rest.length := by
  have h1 : read_csv content =
      some ⟨(splitOnChar ',' h).map String.mk,
            rest.map (fun r => (splitOnChar ',' r).map String.mk)⟩ := by
    rw [read_csv, hl]
  refine ⟨h1, ?_⟩
  intro t ht
  rw [h1] at ht
  obtain rfl := Option.some.inj ht
  exact ⟨rfl, by simp⟩

/-- Witness for C5 at a concrete stream: a two-column, two-data-row CSV
parses to the matching table. -/
theorem read_csv_matches_stream_witness :
    read_csv "a,b\n1,2\n3,4" =
      some ⟨(splitOnChar ',' ['a', ',', 'b']).map String.mk,
            [['1', ',', '2'], ['3', ',', '4']].map
              (fun r => (splitOnChar ',' r).map String.mk)⟩ :=
  (read_csv_matches_stream "a,b\n1,2\n3,4" ['a', ',', 'b']
    [['1', ',', '2'], ['3', ',', '4']] (by decide)).1

/-- Decoding inverts the length-prefixed column-name encoding. -/
theorem decodeNames_encode (xs : List String) (rest : List PTok) :
    decodeNames xs.length (xs.map PTok.name ++ rest) = some (xs, rest) := by
  induction xs with
  | nil => rfl
  | cons a as ih => simp [decodeNames, ih]

/-- Decoding inverts the length-prefixed dtype encoding. -/
theorem decodeDts_encode (xs : List Dtype) (rest : List PTok) :
    decodeDts xs.length (xs.map PTok.dty ++ rest) = some (xs, rest) := by
  induction xs with
  | nil => rfl
  | cons a as ih => simp [decodeDts, ih]

/-- Decoding inverts the cell encoding of one row. -/
theorem decodeCells_encode (xs : List CellVal) (rest : List PTok) :
    decodeCells xs.length (xs.map PTok.cell ++ rest) = some (xs, rest) := by
  induction xs with
  | nil => rfl
  | cons a as ih => simp [decodeCells, ih]

/-- Decoding inverts the row-list encoding. -/
theorem decodeRows_encode (rs : List (List CellVal)) (rest : List PTok) :
    decodeRows rs.length
      ((rs.map encodeRow).foldr (fun a b => a ++ b) [] ++ rest) = some (rs, rest) := by
  induction rs with
  | nil => rfl
  | cons r rs ih =>
    simp only [List.map_cons, List.foldr_cons, encodeRow, List.cons_append,
      List.append_eq, List.append_assoc, decodeRows]
    rw [decodeCells_encode]
    simp [ih]

/-- C6: serializing a dataset to the cache format and reloading it yields
the very same dataset — equal in shape, column names, dtypes and values,
geometry columns included. -/
theorem pickle_round_trip (d : DataSet) : read_pickle (to_pickle d) = some d := by
  obtain ⟨cols, dts, rows⟩ := d
  show read_pickle (encodeCols cols ++ encodeDts dts ++ encodeRows rows) = _
  rw [encodeCols, encodeDts, encodeRows]
  simp only [List.cons_append, List.append_assoc, read_pickle]
  rw [decodeNames_encode]
  simp only [read_pickle]
  rw [decodeDts_encode]
  simp only [read_pickle]
  have h3 := decodeRows_encode rows []
  rw [List.append_nil] at h3
  rw [h3]

/-- C7: the ten cache file names the run writes are pairwise distinct, the
three scratch subdirectory names are pairwise distinct, and no scratch
name collides with a cache name — no step overwrites another step's
output. -/
theorem cache_and_scratch_names_distinct :
    cache_file_names.Nodup ∧ scratch_folder_names.Nodup ∧
      scratch_folder_names.all (fun s => !(cache_file_names.contains s)) = true := by
  decide

/-- C10: with the API key variable left at its literal default, cell-14
still builds and issues the request, and the URL carries the placeholder
text verbatim as the `apiKey` query-parameter value — no step checks that
a real key was substituted. -/
theorem can_placeholder_in_request :
    can_step_request =
      "https://api.covidactnow.org/v2/states.timeseries.csv?apiKey=<your key here>" ∧
    can_step_request =
      "https://api.covidactnow.org/v2/" ++ CAN_File ++ "?apiKey=" ++ CAN_Key ∧
    CAN_Key = "<your key here>" := by
  refine ⟨?_, rfl, rfl⟩
  rfl

